import Mathlib

/-!
Verification of the pressure-drop notification logic of `line_notify.py`.

The embedding models the decision core of the script:

* `is_night_hour` — the night-window test on the JST hour of a timestamp;
* `should_notify` — the file-based cooldown check (read the last-notified
  timestamp, suppress when the elapsed time is below the threshold,
  otherwise record the current timestamp and allow);
* `analize_pressure_drop` — the top-level evaluation (missing-data check,
  night check, drop-threshold check, cooldown consultation, send).

Modelling choices, stated once here:

* Instants (timezone-aware JST datetimes) are modelled as `Int` seconds
  from a fixed JST midnight reference.  Python's `dt.hour` field is then
  `(t / 3600) % 24` with floor division and nonnegative remainder, which
  is `Int.ediv` / `Int.emod`.  Subtracting two aware datetimes yields a
  `timedelta`, modelled as the `Int` difference in seconds; the threshold
  `timedelta(minutes=threshold)` is `threshold * 60` seconds.
* Pressures (Python floats) are modelled as rationals; the claims only
  involve order comparisons against the literal threshold `-1.0`.
* The persisted file `last_notify.txt` is modelled by `FileContent`:
  absent (open raises `FileNotFoundError`), or textual content.  Content
  is either the `isoformat` serialization of an instant — constructor
  `TextRecord.iso t`, which `datetime.fromisoformat` parses back to `t`
  (the Python standard-library round trip is taken as an assumption of
  the model) — or text that is empty or fails to parse (`TextRecord.junk`,
  raising `ValueError` on read).
* `None` arguments from failed providers are `Option.none`.
* Side effects (store reads/writes, message sends) and uncaught Python
  exceptions are modelled separately in `analize_eff`, which threads an
  explicit event trace and an `Except` layer; `analize_pressure_drop` is
  the fault-free projection.
-/

namespace LineNotify

/-- An instant: seconds from a fixed JST midnight reference, as carried by a
timezone-aware `datetime` already converted to JST. -/
abbrev Time := Int

/-- The `hour` field of the JST datetime at instant `t`: floor-divide the
seconds into hours and reduce modulo 24 (both nonnegative-remainder, as in
Python). -/
def hourOf (t : Time) : Int :=
  Int.emod (Int.ediv t 3600) 24

/-- Embedding of `is_night_hour`: `0 <= jst_time.hour < 6`. -/
def is_night_hour (jst_time : Time) : Bool :=
  decide (0 ≤ hourOf jst_time) && decide (hourOf jst_time < 6)

/-- Text stored in `last_notify.txt`: either the `isoformat` serialization
of an instant, or text that is empty or unparseable (`ValueError`). -/
inductive TextRecord : Type
  | iso (t : Time)
  | junk
deriving DecidableEq

/-- State of the persisted cooldown file: missing, or holding some text. -/
inductive FileContent : Type
  | absent
  | content (s : TextRecord)
deriving DecidableEq

/-- The read half of the cooldown store: `None` when the file is missing,
empty, or `datetime.fromisoformat` raises `ValueError`; otherwise the parsed
instant.  (`TextRecord.iso t` parses back to `t`; see the header note on the
round-trip assumption.) -/
def readLastNotified (st : FileContent) : Option Time :=
  match st with
  | FileContent.absent => none
  | FileContent.content (TextRecord.iso t) => some t
  | FileContent.content TextRecord.junk => none

/-- Embedding of `should_notify(current_jst_time, threshold=360)`: result
`Bool` plus the file state after the call.  A missing, empty or unparseable
file is caught (`FileNotFoundError` / `ValueError`) and treated as "may
notify"; inside the cooldown window the function returns `False` without
writing; on every `True` return it first writes `current_jst_time.isoformat()`. -/
def should_notify (current_jst_time : Time) (threshold : Int) (st : FileContent) :
    Bool × FileContent :=
  match readLastNotified st with
  | some last_notify_time =>
      if current_jst_time - last_notify_time < threshold * 60 then
        (false, st)
      else
        (true, FileContent.content (TextRecord.iso current_jst_time))
  | none => (true, FileContent.content (TextRecord.iso current_jst_time))

/-- The decision reached by one evaluation, in the spec's vocabulary.  The
script expresses it through its side effects: an early `return` on missing
data, the night-skip print, the cooldown-skip print, the no-change print, or
an actual send. -/
inductive Decision : Type
  | suppressed (reason : String)
  | notify
  | noChange
deriving DecidableEq

/-- Embedding of `analize_pressure_drop(current_jst_time, current_pressure,
jst_time_30min_ago, pressure_30min_ago)` together with the cooldown-file
state it reads and may write.  Follows the source line by line: the two
missing-data guards, then `delta_pressure`, then night check, then the
`delta_pressure < -1.0` branch consulting `should_notify` with the default
threshold 360. -/
def analize_pressure_drop :
    Option Time → Option ℚ → Option Time → Option ℚ → FileContent →
      Decision × FileContent
  | none, _, _, _, st => (Decision.suppressed "missing-data", st)
  | _, none, _, _, st => (Decision.suppressed "missing-data", st)
  | _, _, none, _, st => (Decision.suppressed "missing-data", st)
  | _, _, _, none, st => (Decision.suppressed "missing-data", st)
  | some current_jst_time, some current_pressure, some _, some pressure_30min_ago, st =>
      let delta_pressure := current_pressure - pressure_30min_ago
      if is_night_hour current_jst_time then
        (Decision.suppressed "night-hours", st)
      else if delta_pressure < -1 then
        let r := should_notify current_jst_time 360 st
        if r.1 then (Decision.notify, r.2)
        else (Decision.suppressed "cooldown-active", r.2)
      else
        (Decision.noChange, st)

/-- The four provider values feeding one evaluation cycle. -/
structure EvalInput : Type where
  ct : Option Time
  cp : Option ℚ
  pt : Option Time
  pp : Option ℚ
deriving DecidableEq

/-- One evaluation cycle as a state transition on the cooldown file. -/
def step (inp : EvalInput) (st : FileContent) : Decision × FileContent :=
  analize_pressure_drop inp.ct inp.cp inp.pt inp.pp st

/-- The decision trace of a sequence of evaluation cycles run from an
initial cooldown-file state, each cycle seeing the file state left by the
previous one. -/
def decisions : List EvalInput → FileContent → List Decision
  | [], _ => []
  | inp :: rest, st =>
      (step inp st).1 :: decisions rest (step inp st).2

/-- Observable side effects of one evaluation, in program order: an attempt
to open and read the cooldown file, a write of an instant to it, and a send
of the notification message carrying the delivery outcome reported by the
push API. -/
inductive Event : Type
  | readStore
  | writeStore (t : Time)
  | send (ok : Bool)
deriving DecidableEq

/-- Effect-aware embedding of `should_notify`.  `readFault = true` means the
`open(..., "r")` raises an `OSError` other than `FileNotFoundError` (for
example `PermissionError`): the `except (FileNotFoundError, ValueError)`
clause does not catch it, so the exception propagates (`Except.error`).
Otherwise the behaviour is that of `should_notify`, with the store events in
program order: the read attempt, then — only on the `True` path — the write
of `current_jst_time.isoformat()` that precedes the `return True`. -/
def should_notify_eff (current_jst_time : Time) (threshold : Int)
    (st : FileContent) (readFault : Bool) :
    Except Unit (Bool × FileContent × List Event) :=
  if readFault then Except.error ()
  else
    match readLastNotified st with
    | some last_notify_time =>
        if current_jst_time - last_notify_time < threshold * 60 then
          Except.ok (false, st, [Event.readStore])
        else
          Except.ok (true, FileContent.content (TextRecord.iso current_jst_time),
            [Event.readStore, Event.writeStore current_jst_time])
    | none =>
        Except.ok (true, FileContent.content (TextRecord.iso current_jst_time),
          [Event.readStore, Event.writeStore current_jst_time])

/-- Effect-aware embedding of `analize_pressure_drop`: same branching as the
pure model, but threading the event trace and the exception layer of
`should_notify_eff`.  `sendOk` is the delivery outcome reported by the push
API for the `send_message` call; it only appears in the `send` event, since
`send_message` is the last action and its result is only printed. -/
def analize_eff (ct : Option Time) (cp : Option ℚ) (pt : Option Time)
    (pp : Option ℚ) (st : FileContent) (readFault sendOk : Bool) :
    Except Unit (Decision × FileContent × List Event) :=
  match ct, cp, pt, pp with
  | none, _, _, _ => Except.ok (Decision.suppressed "missing-data", st, [])
  | _, none, _, _ => Except.ok (Decision.suppressed "missing-data", st, [])
  | _, _, none, _ => Except.ok (Decision.suppressed "missing-data", st, [])
  | _, _, _, none => Except.ok (Decision.suppressed "missing-data", st, [])
  | some current_jst_time, some current_pressure, some _, some pressure_30min_ago =>
      let delta_pressure := current_pressure - pressure_30min_ago
      if is_night_hour current_jst_time then
        Except.ok (Decision.suppressed "night-hours", st, [])
      else if delta_pressure < -1 then
        match should_notify_eff current_jst_time 360 st readFault with
        | Except.error e => Except.error e
        | Except.ok (true, st', evs) =>
            Except.ok (Decision.notify, st', evs ++ [Event.send sendOk])
        | Except.ok (false, st', evs) =>
            Except.ok (Decision.suppressed "cooldown-active", st', evs)
      else
        Except.ok (Decision.noChange, st, [])

/-! ## Basic lemmas -/

lemma hourOf_nonneg (t : Time) : 0 ≤ hourOf t :=
  Int.emod_nonneg _ (by norm_num)

lemma is_night_hour_true_iff (t : Time) : is_night_hour t = true ↔ hourOf t < 6 := by
  simp [is_night_hour, hourOf_nonneg t]

/-- Every call to `should_notify` either returns `True` having overwritten
the file with the current instant, or returns `False` from inside the
cooldown window, leaving the file untouched. -/
lemma should_notify_cases (c : Time) (th : Int) (st : FileContent) :
    should_notify c th st = (true, FileContent.content (TextRecord.iso c))
    ∨ (should_notify c th st = (false, st)
        ∧ ∃ last, readLastNotified st = some last ∧ c - last < th * 60) := by
  unfold should_notify
  rcases hr : readLastNotified st with _ | last
  · exact Or.inl rfl
  · by_cases hlt : c - last < th * 60
    · exact Or.inr ⟨by simp [hlt], last, rfl, hlt⟩
    · exact Or.inl (by simp [hlt])

/-- When the file holds a parseable record, `should_notify` only answers
`True` once the recorded instant is at least `threshold` minutes old. -/
lemma should_notify_true_iso (c s : Time) (th : Int)
    (h : (should_notify c th (FileContent.content (TextRecord.iso s))).1 = true) :
    th * 60 ≤ c - s := by
  unfold should_notify readLastNotified at h
  by_cases hlt : c - s < th * 60
  · simp [hlt] at h
  · exact le_of_not_lt hlt

/-- An evaluation that does not notify leaves the cooldown file unchanged. -/
lemma step_stay (inp : EvalInput) (st : FileContent)
    (h : (step inp st).1 ≠ Decision.notify) : (step inp st).2 = st := by
  rcases inp with ⟨ct, cp, pt, pp⟩
  rcases ct with _ | tc
  · simp [step, analize_pressure_drop]
  rcases cp with _ | cur
  · simp [step, analize_pressure_drop]
  rcases pt with _ | tp
  · simp [step, analize_pressure_drop]
  rcases pp with _ | past
  · simp [step, analize_pressure_drop]
  simp only [step, analize_pressure_drop] at h ⊢
  by_cases hn : is_night_hour tc = true
  · simp [hn]
  by_cases hd : cur - past < (-1 : ℚ)
  · simp only [hn, Bool.false_eq_true, if_false, hd, if_true] at h ⊢
    rcases should_notify_cases tc 360 st with hc | ⟨hc, _⟩
    · rw [hc] at h
      simp at h
    · rw [hc]
      simp
  · simp [hn, hd]

/-- An evaluation that notifies does so at a present current instant `tc`,
overwrites the file with `tc`, and — when the previous file content was a
parseable record `s` — only after at least 360 minutes have elapsed since `s`. -/
lemma step_notify (inp : EvalInput) (st : FileContent)
    (h : (step inp st).1 = Decision.notify) :
    ∃ tc, inp.ct = some tc
      ∧ (step inp st).2 = FileContent.content (TextRecord.iso tc)
      ∧ ∀ s, st = FileContent.content (TextRecord.iso s) → 360 * 60 ≤ tc - s := by
  rcases inp with ⟨ct, cp, pt, pp⟩
  rcases ct with _ | tc
  · simp [step, analize_pressure_drop] at h
  rcases cp with _ | cur
  · simp [step, analize_pressure_drop] at h
  rcases pt with _ | tp
  · simp [step, analize_pressure_drop] at h
  rcases pp with _ | past
  · simp [step, analize_pressure_drop] at h
  simp only [step, analize_pressure_drop] at h ⊢
  by_cases hn : is_night_hour tc = true
  · simp [hn] at h
  by_cases hd : cur - past < (-1 : ℚ)
  · simp only [hn, Bool.false_eq_true, if_false, hd, if_true] at h ⊢
    by_cases hb : (should_notify tc 360 st).1 = true
    · refine ⟨tc, rfl, ?_, ?_⟩
      · rcases should_notify_cases tc 360 st with hc | ⟨hc, _⟩
        · simp [hb, hc]
        · rw [hc] at hb
          simp at hb
      · rintro s rfl
        exact should_notify_true_iso tc s 360 hb
    · simp [hb] at h
  · simp [hn, hd] at h

/-- Running from a file that records instant `s`, any cycle of the run that
notifies does so at a current instant at least 360 minutes after `s`. -/
lemma notify_in_run_elapsed :
    ∀ (inputs : List EvalInput) (s : Time) (k : Nat) (inp : EvalInput) (tc : Time),
      inputs[k]? = some inp → inp.ct = some tc →
      (decisions inputs (FileContent.content (TextRecord.iso s)))[k]?
        = some Decision.notify →
      360 * 60 ≤ tc - s := by
  intro inputs
  induction inputs with
  | nil =>
      intro s k inp tc hk
      simp at hk
  | cons a as ih =>
      intro s k inp tc hk hct hd
      rcases k with _ | k
      · simp only [List.getElem?_cons_zero, Option.some.injEq] at hk
        subst hk
        simp only [decisions, List.getElem?_cons_zero, Option.some.injEq] at hd
        obtain ⟨tc', hct', _, helap⟩ := step_notify a _ hd
        rw [hct] at hct'
        obtain rfl : tc = tc' := by injection hct'
        exact helap s rfl
      · simp only [List.getElem?_cons_succ] at hk
        simp only [decisions, List.getElem?_cons_succ] at hd
        by_cases hn : (step a (FileContent.content (TextRecord.iso s))).1 = Decision.notify
        · obtain ⟨ta, _, hsta, helap⟩ := step_notify a _ hn
          rw [hsta] at hd
          have h1 := ih ta k inp tc hk hct hd
          have h2 := helap s rfl
          linarith
        · rw [step_stay a _ hn] at hd
          exact ih s k inp tc hk hct hd

/-- Exhaustive shape of an effect-aware evaluation.  Either it ends in a
suppression or no-change outcome whose trace holds no write and no send and
whose final state is the initial one, or the uncaught read fault propagates,
or it notifies: then the trace is exactly read, write of the current
instant, send — for every delivery outcome alike. -/
lemma analize_eff_shape (ct : Option Time) (cp : Option ℚ) (pt : Option Time)
    (pp : Option ℚ) (st : FileContent) (rf : Bool) :
    (∃ reason evs, (evs = [] ∨ evs = [Event.readStore])
        ∧ ∀ b, analize_eff ct cp pt pp st rf b
            = Except.ok (Decision.suppressed reason, st, evs))
    ∨ (∀ b, analize_eff ct cp pt pp st rf b
          = Except.ok (Decision.noChange, st, []))
    ∨ (∀ b, analize_eff ct cp pt pp st rf b = Except.error ())
    ∨ (∃ tc, ct = some tc
        ∧ ∀ b, analize_eff ct cp pt pp st rf b
            = Except.ok (Decision.notify, FileContent.content (TextRecord.iso tc),
                [Event.readStore, Event.writeStore tc, Event.send b])) := by
  rcases ct with _ | tc <;> rcases cp with _ | cur <;>
    rcases pt with _ | tp <;> rcases pp with _ | past <;>
    try exact Or.inl ⟨"missing-data", [], Or.inl rfl, fun b => rfl⟩
  by_cases hn : is_night_hour tc = true
  · exact Or.inl ⟨"night-hours", [], Or.inl rfl, fun b => by simp [analize_eff, hn]⟩
  by_cases hd : cur - past < (-1 : ℚ)
  · by_cases hrf : rf = true
    · refine Or.inr (Or.inr (Or.inl fun b => ?_))
      simp [analize_eff, should_notify_eff, hn, hd, hrf]
    · rcases hr : readLastNotified st with _ | last
      · refine Or.inr (Or.inr (Or.inr ⟨tc, rfl, fun b => ?_⟩))
        simp [analize_eff, should_notify_eff, hn, hd, hrf, hr]
      · by_cases hlt : tc - last < (21600 : Int)
        · refine Or.inl ⟨"cooldown-active", [Event.readStore], Or.inr rfl, fun b => ?_⟩
          norm_num [analize_eff, should_notify_eff, hn, hd, hrf, hr, hlt]
        · refine Or.inr (Or.inr (Or.inr ⟨tc, rfl, fun b => ?_⟩))
          norm_num [analize_eff, should_notify_eff, hn, hd, hrf, hr, hlt]
  · exact Or.inr (Or.inl fun b => by simp [analize_eff, hn, hd])

/-! ## Claim theorems -/

/-- C2, as stated, fails on the code: at the night hour 3 (instant 10800)
with equal pressures (delta `0 >= -1.0`) the decision is the night-hours
suppression, not `NoChange` — the night check runs before the delta check. -/
theorem c2_counterexample :
    (-1 : ℚ) ≤ (1000 : ℚ) - 1000
    ∧ (analize_pressure_drop (some 10800) (some 1000) (some 9000) (some 1000)
        FileContent.absent).1 ≠ Decision.noChange := by
  have hn : is_night_hour 10800 = true := by decide
  refine ⟨by norm_num, ?_⟩
  simp [analize_pressure_drop, hn]

/-- C2 (amended): for every pair of present samples whose delta is at least
`-1.0` (including exactly `-1.0`) and whose current timestamp is not in the
night window, the decision is `NoChange` regardless of the cooldown state,
which is left unchanged. -/
theorem c2_nochange (ct pt : Time) (cp pp : ℚ) (st : FileContent)
    (hnight : is_night_hour ct = false) (hdelta : (-1 : ℚ) ≤ cp - pp) :
    analize_pressure_drop (some ct) (some cp) (some pt) (some pp) st
      = (Decision.noChange, st) := by
  simp only [analize_pressure_drop, hnight, Bool.false_eq_true, if_false]
  rw [if_neg (not_lt.mpr hdelta)]

/-- Witness for C2 (amended) at noon with delta `0`. -/
theorem c2_nochange_witness :
    analize_pressure_drop (some 43200) (some 1000) (some 41400) (some 1000)
        FileContent.absent = (Decision.noChange, FileContent.absent) :=
  c2_nochange 43200 41400 1000 1000 FileContent.absent (by decide) (by norm_num)

/-- C3: a current timestamp with JST hour below 6 yields the night-hours
suppression whatever the pressures and the cooldown state, which is left
unchanged; hour exactly 0 is night; hour exactly 6 is not night and can
never yield the night-hours suppression. -/
theorem c3_night_suppression (ct pt : Time) (cp pp : ℚ) (st : FileContent) :
    (hourOf ct < 6 →
      analize_pressure_drop (some ct) (some cp) (some pt) (some pp) st
        = (Decision.suppressed "night-hours", st))
    ∧ (hourOf ct = 0 → is_night_hour ct = true)
    ∧ (hourOf ct = 6 → is_night_hour ct = false
        ∧ (analize_pressure_drop (some ct) (some cp) (some pt) (some pp) st).1
            ≠ Decision.suppressed "night-hours") := by
  refine ⟨fun h => ?_, fun h => ?_, fun h => ?_⟩
  · have hn : is_night_hour ct = true := (is_night_hour_true_iff ct).mpr h
    simp [analize_pressure_drop, hn]
  · exact (is_night_hour_true_iff ct).mpr (by rw [h]; norm_num)
  · have hn : is_night_hour ct = false := by simp [is_night_hour, h]
    refine ⟨hn, ?_⟩
    simp only [analize_pressure_drop, hn, Bool.false_eq_true, if_false]
    by_cases hd : cp - pp < (-1 : ℚ)
    · simp only [hd, if_true]
      by_cases hb : (should_notify ct 360 st).1 = true
      · simp [hb]
      · simp [hb]
    · simp [hd]

/-- Witness for C3 at hour 1 (instant 3600) with a large drop and no record. -/
theorem c3_night_suppression_witness :
    analize_pressure_drop (some 3600) (some 1000) (some 1800) (some 1010)
        FileContent.absent
      = (Decision.suppressed "night-hours", FileContent.absent) :=
  (c3_night_suppression 3600 1800 1000 1010 FileContent.absent).1 (by decide)

/-- C4: with a qualifying drop at a non-night hour and a parseable record of
instant `s`, an elapsed time under 360 minutes yields the cooldown-active
suppression with the record untouched, and an elapsed time of at least 360
minutes yields `Notify` with the record overwritten by the current instant. -/
theorem c4_cooldown_gate (ct pt s : Time) (cp pp : ℚ)
    (hnight : is_night_hour ct = false) (hdrop : cp - pp < -1) :
    (ct - s < 360 * 60 →
      analize_pressure_drop (some ct) (some cp) (some pt) (some pp)
          (FileContent.content (TextRecord.iso s))
        = (Decision.suppressed "cooldown-active",
            FileContent.content (TextRecord.iso s)))
    ∧ (360 * 60 ≤ ct - s →
      analize_pressure_drop (some ct) (some cp) (some pt) (some pp)
          (FileContent.content (TextRecord.iso s))
        = (Decision.notify, FileContent.content (TextRecord.iso ct))) := by
  constructor <;> intro h
  · have h' : ct - s < (21600 : Int) := by linarith
    simp [analize_pressure_drop, should_notify, readLastNotified, hnight, hdrop, h']
  · have h' : ¬ct - s < (21600 : Int) := by linarith
    simp [analize_pressure_drop, should_notify, readLastNotified, hnight, hdrop, h']

/-- Witness for C4: records from 10 minutes ago and from 361 minutes ago. -/
theorem c4_cooldown_gate_witness :
    analize_pressure_drop (some 43200) (some 1000) (some 41400) (some 1002)
        (FileContent.content (TextRecord.iso (43200 - 600)))
      = (Decision.suppressed "cooldown-active",
          FileContent.content (TextRecord.iso (43200 - 600)))
    ∧ analize_pressure_drop (some 43200) (some 1000) (some 41400) (some 1002)
        (FileContent.content (TextRecord.iso (43200 - 21660)))
      = (Decision.notify, FileContent.content (TextRecord.iso 43200)) :=
  ⟨(c4_cooldown_gate 43200 41400 (43200 - 600) 1000 1002 (by decide)
      (by norm_num)).1 (by norm_num),
   (c4_cooldown_gate 43200 41400 (43200 - 21660) 1000 1002 (by decide)
      (by norm_num)).2 (by norm_num)⟩

/-- C5: whenever any of the four provider values is absent, the evaluation
returns the missing-data suppression and the cooldown state — whatever it
was — is returned unread and unchanged. -/
theorem c5_missing_data (ct : Option Time) (cp : Option ℚ) (pt : Option Time)
    (pp : Option ℚ) (st : FileContent)
    (h : ct = none ∨ cp = none ∨ pt = none ∨ pp = none) :
    analize_pressure_drop ct cp pt pp st
      = (Decision.suppressed "missing-data", st) := by
  rcases ct with _ | a <;> rcases cp with _ | b <;> rcases pt with _ | c <;>
    rcases pp with _ | d <;> simp_all [analize_pressure_drop]

/-- Witness for C5 with an absent current sample. -/
theorem c5_missing_data_witness :
    analize_pressure_drop none (some 1000) (some 41400) (some 990)
        FileContent.absent
      = (Decision.suppressed "missing-data", FileContent.absent) :=
  c5_missing_data none (some 1000) (some 41400) (some 990) FileContent.absent
    (Or.inl rfl)

/-- C1: over any sequence of evaluation cycles from any initial cooldown
state, two cycles that both notify are at least 360 minutes apart — the
notify path records its current instant and every later evaluation inside
the window reads that record and suppresses. -/
theorem c1_cooldown_window :
    ∀ (inputs : List EvalInput) (st0 : FileContent) (i j : Nat)
      (ii jj : EvalInput) (ti tj : Time),
      i < j → inputs[i]? = some ii → inputs[j]? = some jj →
      ii.ct = some ti → jj.ct = some tj →
      (decisions inputs st0)[i]? = some Decision.notify →
      (decisions inputs st0)[j]? = some Decision.notify →
      360 * 60 ≤ tj - ti := by
  intro inputs
  induction inputs with
  | nil =>
      intro st0 i j ii jj ti tj hij hi
      simp at hi
  | cons a as ih =>
      intro st0 i j ii jj ti tj hij hi hj hti htj di dj
      rcases i with _ | i
      · simp only [List.getElem?_cons_zero, Option.some.injEq] at hi
        subst hi
        simp only [decisions, List.getElem?_cons_zero, Option.some.injEq] at di
        obtain ⟨tc, hct, hst, _⟩ := step_notify a st0 di
        rw [hti] at hct
        obtain rfl : ti = tc := by injection hct
        rcases j with _ | j
        · exact absurd hij (by omega)
        · simp only [List.getElem?_cons_succ] at hj
          simp only [decisions, List.getElem?_cons_succ] at dj
          rw [hst] at dj
          exact notify_in_run_elapsed as ti j jj tj hj htj dj
      · rcases j with _ | j
        · exact absurd hij (by omega)
        · simp only [List.getElem?_cons_succ] at hi hj
          simp only [decisions, List.getElem?_cons_succ] at di dj
          exact ih (step a st0).2 i j ii jj ti tj (by omega) hi hj hti htj di dj

/-- Witness for C1: two notifying cycles exactly 360 minutes apart. -/
theorem c1_cooldown_window_witness :
    (decisions
        [⟨some 43200, some 1000, some 41400, some 1002⟩,
         ⟨some 64800, some 1000, some 63000, some 1002⟩]
        FileContent.absent)[0]? = some Decision.notify
    ∧ (decisions
        [⟨some 43200, some 1000, some 41400, some 1002⟩,
         ⟨some 64800, some 1000, some 63000, some 1002⟩]
        FileContent.absent)[1]? = some Decision.notify
    ∧ 360 * 60 ≤ (64800 : Int) - 43200 := by
  have hn1 : is_night_hour 43200 = false := by decide
  have hn2 : is_night_hour 64800 = false := by decide
  have h0 : (decisions
      [⟨some 43200, some 1000, some 41400, some 1002⟩,
       ⟨some 64800, some 1000, some 63000, some 1002⟩]
      FileContent.absent)[0]? = some Decision.notify := by
    norm_num [decisions, step, analize_pressure_drop, should_notify,
      readLastNotified, hn1, hn2]
  have h1 : (decisions
      [⟨some 43200, some 1000, some 41400, some 1002⟩,
       ⟨some 64800, some 1000, some 63000, some 1002⟩]
      FileContent.absent)[1]? = some Decision.notify := by
    norm_num [decisions, step, analize_pressure_drop, should_notify,
      readLastNotified, hn1, hn2]
  exact ⟨h0, h1,
    c1_cooldown_window
      [⟨some 43200, some 1000, some 41400, some 1002⟩,
       ⟨some 64800, some 1000, some 63000, some 1002⟩]
      FileContent.absent 0 1
      ⟨some 43200, some 1000, some 41400, some 1002⟩
      ⟨some 64800, some 1000, some 63000, some 1002⟩
      43200 64800 (by omega) rfl rfl rfl rfl h0 h1⟩

/-- C6, as stated, fails on the code: an I/O error on the read of the
cooldown file other than a missing file — here a fault while the file
exists and holds a stale record — is not caught by the
`except (FileNotFoundError, ValueError)` clause, so a qualifying drop at a
non-night hour raises instead of notifying. -/
theorem c6_counterexample :
    is_night_hour 43200 = false
    ∧ ((1000 : ℚ) - 1002 < -1)
    ∧ analize_eff (some 43200) (some 1000) (some 41400) (some 1002)
        (FileContent.content (TextRecord.iso 0)) true true = Except.error () := by
  have hn : is_night_hour 43200 = false := by decide
  refine ⟨hn, by norm_num, ?_⟩
  norm_num [analize_eff, should_notify_eff, hn]

/-- C6 (amended): a missing, empty or unparseable record reads as absent and
lets a qualifying drop at a non-night hour notify; but a read-side I/O error
other than file-not-found propagates as an uncaught exception, and then no
notification is produced. -/
theorem c6_fail_open (ct pt : Time) (cp pp : ℚ) (st : FileContent) (sOk : Bool)
    (hnight : is_night_hour ct = false) (hdrop : cp - pp < -1) :
    ((st = FileContent.absent ∨ st = FileContent.content TextRecord.junk) →
      readLastNotified st = none
      ∧ analize_eff (some ct) (some cp) (some pt) (some pp) st false sOk
          = Except.ok (Decision.notify, FileContent.content (TextRecord.iso ct),
              [Event.readStore, Event.writeStore ct, Event.send sOk]))
    ∧ analize_eff (some ct) (some cp) (some pt) (some pp) st true sOk
        = Except.error () := by
  constructor
  · rintro (rfl | rfl) <;>
      exact ⟨rfl, by simp [analize_eff, should_notify_eff, readLastNotified,
        hnight, hdrop]⟩
  · simp [analize_eff, should_notify_eff, hnight, hdrop]

/-- Witness for C6 (amended): a missing record and a qualifying drop
produce the notification. -/
theorem c6_fail_open_witness :
    analize_eff (some 43200) (some 1000) (some 41400) (some 1002)
        FileContent.absent false true
      = Except.ok (Decision.notify, FileContent.content (TextRecord.iso 43200),
          [Event.readStore, Event.writeStore 43200, Event.send true]) :=
  ((c6_fail_open 43200 41400 1000 1002 FileContent.absent true (by decide)
      (by norm_num)).1 (Or.inl rfl)).2

/-- C7: in every run that decides to notify, the event trace is exactly the
store read, then the write of the current instant, then the send — so the
record is written before the message goes out, and the write and the
resulting state are the same whatever delivery outcome the send reports;
runs that do not notify emit no send event at all. -/
theorem c7_record_before_send (ct : Option Time) (cp : Option ℚ)
    (pt : Option Time) (pp : Option ℚ) (st : FileContent) (rf sOk sOk' : Bool)
    (d : Decision) (st' : FileContent) (evs : List Event)
    (h : analize_eff ct cp pt pp st rf sOk = Except.ok (d, st', evs)) :
    (d = Decision.notify →
      ∃ tc, ct = some tc
        ∧ st' = FileContent.content (TextRecord.iso tc)
        ∧ evs = [Event.readStore, Event.writeStore tc, Event.send sOk]
        ∧ analize_eff ct cp pt pp st rf sOk'
            = Except.ok (Decision.notify, st',
                [Event.readStore, Event.writeStore tc, Event.send sOk']))
    ∧ (d ≠ Decision.notify → ∀ b, Event.send b ∉ evs) := by
  rcases analize_eff_shape ct cp pt pp st rf with
    ⟨reason, evs0, hevs, hall⟩ | hall | hall | ⟨tc, hct, hall⟩
  · rw [hall sOk] at h
    simp only [Except.ok.injEq, Prod.mk.injEq] at h
    obtain ⟨h1, h2, h3⟩ := h
    subst h1; subst h2; subst h3
    refine ⟨fun hd => absurd hd (by simp), fun _ b => ?_⟩
    rcases hevs with rfl | rfl <;> simp
  · rw [hall sOk] at h
    simp only [Except.ok.injEq, Prod.mk.injEq] at h
    obtain ⟨h1, h2, h3⟩ := h
    subst h1; subst h2; subst h3
    refine ⟨fun hd => absurd hd (by simp), fun _ b => ?_⟩
    simp
  · rw [hall sOk] at h
    exact absurd h (by simp)
  · rw [hall sOk] at h
    simp only [Except.ok.injEq, Prod.mk.injEq] at h
    obtain ⟨h1, h2, h3⟩ := h
    subst h1; subst h2; subst h3
    refine ⟨fun _ => ⟨tc, hct, rfl, rfl, ?_⟩, fun hd => absurd rfl hd⟩
    exact hall sOk'

/-- Witness for C7 at a concrete notifying run. -/
theorem c7_record_before_send_witness :
    ∃ tc, (some (43200 : Int)) = some tc
      ∧ FileContent.content (TextRecord.iso 43200)
          = FileContent.content (TextRecord.iso tc)
      ∧ [Event.readStore, Event.writeStore 43200, Event.send true]
          = [Event.readStore, Event.writeStore tc, Event.send true]
      ∧ analize_eff (some 43200) (some 1000) (some 41400) (some 1002)
            FileContent.absent false false
          = Except.ok (Decision.notify, FileContent.content (TextRecord.iso 43200),
              [Event.readStore, Event.writeStore tc, Event.send false]) := by
  have hn : is_night_hour 43200 = false := by decide
  have h : analize_eff (some 43200) (some 1000) (some 41400) (some 1002)
      FileContent.absent false true
      = Except.ok (Decision.notify, FileContent.content (TextRecord.iso 43200),
          [Event.readStore, Event.writeStore 43200, Event.send true]) := by
    norm_num [analize_eff, should_notify_eff, readLastNotified, hn]
  exact (c7_record_before_send (some 43200) (some 1000) (some 41400) (some 1002)
      FileContent.absent false true false Decision.notify
      (FileContent.content (TextRecord.iso 43200))
      [Event.readStore, Event.writeStore 43200, Event.send true] h).1 rfl

/-- C8: with a qualifying drop at a non-night hour and no prior record, the
decision is `Notify` and reading the store back afterwards returns exactly
the evaluation's current instant (the serialized record parses back to the
same instant). -/
theorem c8_store_roundtrip (ct pt : Time) (cp pp : ℚ)
    (hnight : is_night_hour ct = false) (hdrop : cp - pp < -1) :
    analize_pressure_drop (some ct) (some cp) (some pt) (some pp)
        FileContent.absent
      = (Decision.notify, FileContent.content (TextRecord.iso ct))
    ∧ readLastNotified
        (analize_pressure_drop (some ct) (some cp) (some pt) (some pp)
          FileContent.absent).2 = some ct := by
  have h : analize_pressure_drop (some ct) (some cp) (some pt) (some pp)
      FileContent.absent
      = (Decision.notify, FileContent.content (TextRecord.iso ct)) := by
    simp [analize_pressure_drop, should_notify, readLastNotified, hnight, hdrop]
  exact ⟨h, by rw [h]; rfl⟩

/-- Witness for C8 at noon with a 2 hPa drop. -/
theorem c8_store_roundtrip_witness :
    analize_pressure_drop (some 43200) (some 1000) (some 41400) (some 1002)
        FileContent.absent
      = (Decision.notify, FileContent.content (TextRecord.iso 43200))
    ∧ readLastNotified
        (analize_pressure_drop (some 43200) (some 1000) (some 41400) (some 1002)
          FileContent.absent).2 = some 43200 :=
  c8_store_roundtrip 43200 41400 1000 1002 (by decide) (by norm_num)

/-- C9: evaluation is idempotent — an evaluation whose decision is not
`Notify` leaves the persisted state unchanged, and re-evaluating the same
samples from that state yields the same decision and state again. -/
theorem c9_evaluation_idempotent (inp : EvalInput) (st : FileContent)
    (h : (step inp st).1 ≠ Decision.notify) :
    (step inp st).2 = st ∧ step inp ((step inp st).2) = step inp st := by
  have hst := step_stay inp st h
  exact ⟨hst, by rw [hst]⟩

/-- Witness for C9 at a no-change evaluation. -/
theorem c9_evaluation_idempotent_witness :
    (step ⟨some 43200, some 1000, some 41400, some 1000⟩ FileContent.absent).2
        = FileContent.absent
    ∧ step ⟨some 43200, some 1000, some 41400, some 1000⟩
        ((step ⟨some 43200, some 1000, some 41400, some 1000⟩
          FileContent.absent).2)
        = step ⟨some 43200, some 1000, some 41400, some 1000⟩
            FileContent.absent := by
  have hn : is_night_hour 43200 = false := by decide
  exact c9_evaluation_idempotent ⟨some 43200, some 1000, some 41400, some 1000⟩
    FileContent.absent (by norm_num [step, analize_pressure_drop, hn]; decide)

/-- C10: a persisted instant lying in the future of the current timestamp
makes the signed elapsed time negative, hence below the threshold, so a
qualifying drop at a non-night hour is suppressed as cooldown-active. -/
theorem c10_future_record (ct pt s : Time) (cp pp : ℚ)
    (hnight : is_night_hour ct = false) (hdrop : cp - pp < -1) (hfut : ct < s) :
    analize_pressure_drop (some ct) (some cp) (some pt) (some pp)
        (FileContent.content (TextRecord.iso s))
      = (Decision.suppressed "cooldown-active",
          FileContent.content (TextRecord.iso s)) := by
  have h' : ct - s < (21600 : Int) := by linarith
  simp [analize_pressure_drop, should_notify, readLastNotified, hnight, hdrop, h']

/-- Witness for C10: a record one minute in the future. -/
theorem c10_future_record_witness :
    analize_pressure_drop (some 43200) (some 1000) (some 41400) (some 1002)
        (FileContent.content (TextRecord.iso 43260))
      = (Decision.suppressed "cooldown-active",
          FileContent.content (TextRecord.iso 43260)) :=
  c10_future_record 43200 41400 43260 1000 1002 (by decide) (by norm_num)
    (by norm_num)

end LineNotify
